import Mathlib

/-!
Shallow embedding of the push-event relay script (src/extra/fp.py, a small
Python 2 program).  The script parses a GitHub-style push event from stdin,
locates the named repository under a base directory, runs a fetch there, pipes
the revision range into the post-receive hook and relays the hook output and
exit status.  We model one run of main as a pure function of the command-line
arguments, the parsed stdin payload and an environment describing the
filesystem and the behaviour of the two subprocesses, returning the ordered
list of external effects performed and the final outcome.
-/

set_option autoImplicit false

/-- The fields of the JSON payload that the script reads (lines 40 to 43 of the
source).  Each field is present with a string value or absent; an absent key
makes the Python dict lookup raise a KeyError at extraction time.  The
repository name models the nested lookup of repository then name. -/
structure Payload where
  repoName : Option String
  ref : Option String
  before : Option String
  after : Option String
  deriving DecidableEq

/-- The external world a single run interacts with: whether a path can be
changed into as a directory, the exit code of the git fetch subprocess, whether
the hook executable can be started at all, and the bytes and exit status the
hook produces when it runs. -/
structure Env where
  dirExists : String → Bool
  fetchExitCode : Nat
  hookStartOk : Bool
  hookStdout : String
  hookStderr : String
  hookExitCode : Int

/-- The externally visible side effects of a run, in order: reading the stdin
payload, changing directory, starting the fetch subprocess, and starting the
hook subprocess with the given bytes written to its stdin. -/
inductive Effect where
  | readStdin
  | chdir (dir : String)
  | runFetch
  | runHook (stdinData : String)
  deriving DecidableEq

/-- The ways a run terminates abnormally, one per uncaught Python exception in
the source: the option parser usage error, a JSON parse failure, a KeyError
from a missing payload key, the explicit validation exceptions, an OSError
from chdir on a missing repository directory, a CalledProcessError from a
non-zero fetch, and an OSError from starting a missing hook executable. -/
inductive RelayError where
  | usageError
  | malformedInput
  | keyError (key : String)
  | missingField (field : String)
  | chdirFailed (dir : String)
  | fetchFailed (code : Nat)
  | hookStartFailed
  deriving DecidableEq

/-- How a run ends: a normal exit carrying the exit code passed to sys.exit
and the bytes written to the relay stdout and stderr, or an uncaught error. -/
inductive Outcome where
  | exited (code : Int) (stdoutData stderrData : String)
  | failed (err : RelayError)
  deriving DecidableEq

/-- The effect trace and the outcome of one run. -/
structure RunResult where
  effects : List Effect
  outcome : Outcome
  deriving DecidableEq

/-- os.path.join for one extra component, as posixpath implements it: an
absolute second component replaces the first; otherwise a separator is
inserted unless the first component is empty or already ends in one. -/
def pyJoin (a b : String) : String :=
  if b.data.head? = some '/' then b
  else if a = "" ∨ a.data.getLast? = some '/' then a ++ b
  else a ++ "/" ++ b

/-- The validation function at lines 57 to 65 of the source, returning the
first exception it would raise: it checks ref, then before, then after, and
raises on the first empty value (Python truthiness of a string). -/
def validatePostReceiveArgs (ref before after : String) : Option RelayError :=
  if ref = "" then some (.missingField "ref")
  else if before = "" then some (.missingField "before")
  else if after = "" then some (.missingField "after")
  else none

/-- The line written to the hook stdin at line 51 of the source:
before, then after, then ref, space separated and newline terminated. -/
def hookInputLine (before after ref : String) : String :=
  before ++ " " ++ after ++ " " ++ ref ++ "\n"

/-- Lines 47 to 54 of the source, reached once all four fields are extracted
and validated: join the base directory and the repository name, chdir there,
run git fetch (check_call raises on a non-zero exit), start the hook, write
the input line to it, then print the captured stdout and stderr (the Python 2
print statement appends one newline to each) and exit with the hook status. -/
def runValidated (baseRepoDir repoName ref before after : String) (env : Env) :
    RunResult :=
  if env.dirExists (pyJoin baseRepoDir repoName) then
    if env.fetchExitCode = 0 then
      if env.hookStartOk then
        ⟨[.chdir (pyJoin baseRepoDir repoName), .runFetch,
          .runHook (hookInputLine before after ref)],
         .exited env.hookExitCode (env.hookStdout ++ "\n")
           (env.hookStderr ++ "\n")⟩
      else
        ⟨[.chdir (pyJoin baseRepoDir repoName), .runFetch],
         .failed .hookStartFailed⟩
    else
      ⟨[.chdir (pyJoin baseRepoDir repoName), .runFetch],
       .failed (.fetchFailed env.fetchExitCode)⟩
  else
    ⟨[], .failed (.chdirFailed (pyJoin baseRepoDir repoName))⟩

/-- Lines 40 to 54 of the source, after the payload has been parsed: extract
repository name, ref, before and after in that order (a missing key raises
KeyError at the corresponding lookup), validate, then proceed to the
filesystem and subprocess steps. -/
def mainAfterParse (baseRepoDir : String) (p : Payload) (env : Env) :
    RunResult :=
  match p.repoName, p.ref, p.before, p.after with
  | none, _, _, _ => ⟨[], .failed (.keyError "repository")⟩
  | some _, none, _, _ => ⟨[], .failed (.keyError "ref")⟩
  | some _, some _, none, _ => ⟨[], .failed (.keyError "before")⟩
  | some _, some _, some _, none => ⟨[], .failed (.keyError "after")⟩
  | some repoName, some ref, some before, some after =>
    match validatePostReceiveArgs ref before after with
    | some e => ⟨[], .failed e⟩
    | none => runValidated baseRepoDir repoName ref before after env

/-- The whole of main (lines 11 to 54): option parsing requires at least one
positional argument and errors out before stdin is touched; otherwise stdin is
read and parsed as JSON (a parse failure raises before any field is read) and
the rest of the run proceeds on the first positional argument. -/
def runMain (args : List String) (stdinPayload : Option Payload) (env : Env) :
    RunResult :=
  match args with
  | [] => ⟨[], .failed .usageError⟩
  | baseRepoDir :: _ =>
    match stdinPayload with
    | none => ⟨[.readStdin], .failed .malformedInput⟩
    | some p =>
      let r := mainAfterParse baseRepoDir p env
      ⟨.readStdin :: r.effects, r.outcome⟩

/-- Recognises the hook invocation effect. -/
def Effect.isRunHook : Effect → Bool
  | .runHook _ => true
  | _ => false

/-- Recognises the fetch invocation effect. -/
def Effect.isRunFetch : Effect → Bool
  | .runFetch => true
  | _ => false

/-- Recognises any filesystem or subprocess interaction: a directory change,
the fetch subprocess or the hook subprocess. -/
def Effect.touchesFsOrProc : Effect → Bool
  | .chdir _ => true
  | .runFetch => true
  | .runHook _ => true
  | .readStdin => false

/-- The exit code of an outcome, when the run exited normally. -/
def Outcome.exitCode : Outcome → Option Int
  | .exited c _ _ => some c
  | .failed _ => none

/-- Whether the outcome is a relay error rather than a relayed hook status. -/
def Outcome.isRelayError : Outcome → Bool
  | .failed _ => true
  | .exited _ _ _ => false

/-- A directory path with trailing separators removed, as a character list;
two strings with the same value denote the same directory. -/
def stripTrailingSep (s : String) : List Char :=
  (s.data.reverse.dropWhile (fun c => c = '/')).reverse

/-- An environment where the repository directory exists, the fetch succeeds
and the hook starts, producing fixed output bytes and exit status 3. -/
def envOk : Env :=
  ⟨fun _ => true, 0, true, "out", "err", 3⟩

/-- An environment where the repository directory exists and the fetch
subprocess exits with status 7. -/
def envFetchFails : Env :=
  ⟨fun _ => true, 7, true, "out", "err", 0⟩

/-- An environment where no repository directory exists. -/
def envNoDir : Env :=
  ⟨fun _ => false, 0, true, "out", "err", 0⟩

theorem stripTrailingSep_append_sep (s : String) :
    stripTrailingSep (s ++ "/") = stripTrailingSep s := by
  simp [stripTrailingSep, String.data_append, List.dropWhile]

theorem stripTrailingSep_pyJoin_empty (base : String) :
    stripTrailingSep (pyJoin base "") = stripTrailingSep base := by
  have hb : ¬(("" : String).data.head? = some '/') := by simp
  by_cases h1 : base = ""
  · subst h1; rfl
  · by_cases h2 : base.data.getLast? = some '/'
    · have : pyJoin base "" = base ++ "" := by
        unfold pyJoin; rw [if_neg hb, if_pos (Or.inr h2)]
      rw [this]
      simp [stripTrailingSep, String.data_append]
    · have hc : ¬(base = "" ∨ base.data.getLast? = some '/') := by
        intro h; rcases h with h | h
        · exact h1 h
        · exact h2 h
      have : pyJoin base "" = base ++ "/" ++ "" := by
        unfold pyJoin; rw [if_neg hb, if_neg hc]
      rw [this]
      calc stripTrailingSep (base ++ "/" ++ "")
          = stripTrailingSep (base ++ "/") := by
            simp [stripTrailingSep, String.data_append]
        _ = stripTrailingSep base := stripTrailingSep_append_sep base

/-- Claim C1: for every run that reaches the hook invocation step with
validated fields, the relay writes to the hook stdin exactly one chunk of
bytes, the line consisting of the before revision, a space, the after
revision, a space, the ref, and a terminating newline, in that order. -/
theorem hook_receives_before_after_ref_line
    (base n r b a : String) (env : Env)
    (hr : r ≠ "") (hb : b ≠ "") (ha : a ≠ "")
    (hd : env.dirExists (pyJoin base n) = true)
    (hf : env.fetchExitCode = 0)
    (hh : env.hookStartOk = true) :
    (runMain [base] (some ⟨some n, some r, some b, some a⟩) env).effects.filter
        Effect.isRunHook
      = [Effect.runHook (b ++ " " ++ a ++ " " ++ r ++ "\n")] := by
  simp [runMain, mainAfterParse, validatePostReceiveArgs, runValidated,
    hookInputLine, Effect.isRunHook, hr, hb, ha, hd, hf, hh]

/-- Witness for claim C1 at a concrete run. -/
theorem hook_receives_before_after_ref_line_witness :
    (runMain ["/repos"]
        (some ⟨some "proj", some "refs/heads/main", some "oldrev", some "newrev"⟩)
        envOk).effects.filter Effect.isRunHook
      = [Effect.runHook ("oldrev" ++ " " ++ "newrev" ++ " "
          ++ "refs/heads/main" ++ "\n")] :=
  hook_receives_before_after_ref_line "/repos" "proj" "refs/heads/main"
    "oldrev" "newrev" envOk (by decide) (by decide) (by decide) rfl rfl rfl

/-- Claim C2 counterexample: the relay does not copy the hook output
byte for byte.  The Python 2 print statements at lines 52 and 53 append one
newline to the captured stdout and one to the captured stderr, so a hook that
produces the bytes out on stdout makes the relay write out followed by a
newline, which differs from out. -/
theorem relay_stdout_not_verbatim_cex :
    (runMain ["/repos"]
        (some ⟨some "proj", some "refs/heads/main", some "oldrev", some "newrev"⟩)
        envOk).outcome
      = .exited 3 "out\n" "err\n" ∧ ("out\n" : String) ≠ "out" := by
  exact ⟨rfl, by decide⟩

/-- Claim C2 amended: for every run in which the hook starts and terminates,
the relay writes the hook captured stdout followed by one extra newline to
its own stdout, and the hook captured stderr followed by one extra newline to
its own stderr. -/
theorem relay_appends_newline_to_hook_output
    (base n r b a : String) (env : Env)
    (hr : r ≠ "") (hb : b ≠ "") (ha : a ≠ "")
    (hd : env.dirExists (pyJoin base n) = true)
    (hf : env.fetchExitCode = 0)
    (hh : env.hookStartOk = true) :
    (runMain [base] (some ⟨some n, some r, some b, some a⟩) env).outcome
      = .exited env.hookExitCode (env.hookStdout ++ "\n")
          (env.hookStderr ++ "\n") := by
  simp [runMain, mainAfterParse, validatePostReceiveArgs, runValidated,
    hr, hb, ha, hd, hf, hh]

/-- Witness for the amended claim C2 at a concrete run. -/
theorem relay_appends_newline_to_hook_output_witness :
    (runMain ["/repos"]
        (some ⟨some "proj", some "refs/heads/main", some "oldrev", some "newrev"⟩)
        envOk).outcome
      = .exited envOk.hookExitCode (envOk.hookStdout ++ "\n")
          (envOk.hookStderr ++ "\n") :=
  relay_appends_newline_to_hook_output "/repos" "proj" "refs/heads/main"
    "oldrev" "newrev" envOk (by decide) (by decide) (by decide) rfl rfl rfl

/-- Claim C3: for every run in which the hook runs to completion, the relay
exits with exactly the hook exit status, and a non-zero hook status is
relayed as a normal exit, not as a relay error. -/
theorem relay_exits_with_hook_status
    (base n r b a : String) (env : Env)
    (hr : r ≠ "") (hb : b ≠ "") (ha : a ≠ "")
    (hd : env.dirExists (pyJoin base n) = true)
    (hf : env.fetchExitCode = 0)
    (hh : env.hookStartOk = true) :
    ((runMain [base] (some ⟨some n, some r, some b, some a⟩) env).outcome.exitCode
        = some env.hookExitCode)
    ∧ (runMain [base]
        (some ⟨some n, some r, some b, some a⟩) env).outcome.isRelayError
        = false := by
  simp [runMain, mainAfterParse, validatePostReceiveArgs, runValidated,
    Outcome.exitCode, Outcome.isRelayError, hr, hb, ha, hd, hf, hh]

/-- Witness for claim C3 at a concrete run with hook exit status 3. -/
theorem relay_exits_with_hook_status_witness :
    ((runMain ["/repos"]
        (some ⟨some "proj", some "refs/heads/main", some "oldrev", some "newrev"⟩)
        envOk).outcome.exitCode = some envOk.hookExitCode)
    ∧ (runMain ["/repos"]
        (some ⟨some "proj", some "refs/heads/main", some "oldrev", some "newrev"⟩)
        envOk).outcome.isRelayError = false :=
  relay_exits_with_hook_status "/repos" "proj" "refs/heads/main"
    "oldrev" "newrev" envOk (by decide) (by decide) (by decide) rfl rfl rfl

/-- Claim C10: with no positional argument the relay stops with the usage
error and performs no effect at all; in particular stdin is never read, so
argument checking precedes the payload parse. -/
theorem no_args_errors_before_reading_stdin (p : Option Payload) (env : Env) :
    runMain [] p env = ⟨[], .failed .usageError⟩ :=
  rfl

/-- Claim C4: a non-zero fetch exit aborts the run with the fetch failure
error carrying that exit code, and the hook is never invoked. -/
theorem fetch_failure_aborts_without_hook
    (base n r b a : String) (env : Env)
    (hr : r ≠ "") (hb : b ≠ "") (ha : a ≠ "")
    (hd : env.dirExists (pyJoin base n) = true)
    (hf : env.fetchExitCode ≠ 0) :
    ((runMain [base] (some ⟨some n, some r, some b, some a⟩) env).outcome
        = .failed (.fetchFailed env.fetchExitCode))
    ∧ (runMain [base] (some ⟨some n, some r, some b, some a⟩) env).effects.filter
        Effect.isRunHook = [] := by
  simp [runMain, mainAfterParse, validatePostReceiveArgs, runValidated,
    Effect.isRunHook, hr, hb, ha, hd, hf]

/-- Witness for claim C4 at a concrete run whose fetch exits with status 7. -/
theorem fetch_failure_aborts_without_hook_witness :
    ((runMain ["/repos"]
        (some ⟨some "proj", some "refs/heads/main", some "oldrev", some "newrev"⟩)
        envFetchFails).outcome
        = .failed (.fetchFailed envFetchFails.fetchExitCode))
    ∧ (runMain ["/repos"]
        (some ⟨some "proj", some "refs/heads/main", some "oldrev", some "newrev"⟩)
        envFetchFails).effects.filter Effect.isRunHook = [] :=
  fetch_failure_aborts_without_hook "/repos" "proj" "refs/heads/main"
    "oldrev" "newrev" envFetchFails (by decide) (by decide) (by decide) rfl
    (by decide)

/-- Claim C5 counterexample: field extraction precedes validation, so a
payload whose ref is present and non-empty and whose before is empty but
whose after key is absent fails with the KeyError for after, not with the
before error the claim requires; the same payload with ref empty instead
would equally report after, not ref. -/
theorem field_check_order_cex :
    ((runMain ["/repos"]
        (some ⟨some "proj", some "refs/heads/main", some "", none⟩)
        envOk).outcome = .failed (.keyError "after"))
    ∧ ("after" : String) ≠ "before" ∧ ("after" : String) ≠ "ref" :=
  ⟨rfl, by decide, by decide⟩

/-- Claim C5 amended: among payloads whose four keys are all present,
validation checks ref, then before, then after, short-circuiting on the
first empty value, so an empty before with a non-empty ref reports the
before error and an empty ref reports the ref error; when the ref key is
absent altogether, the KeyError for ref is reported regardless of the other
fields, because extraction reads ref before before and after. -/
theorem field_check_order_amended
    (base n r b a : String) (ob oa : Option String) (env : Env)
    (hr : r ≠ "") :
    ((runMain [base] (some ⟨some n, some r, some "", some a⟩) env).outcome
        = .failed (.missingField "before"))
    ∧ ((runMain [base] (some ⟨some n, none, ob, oa⟩) env).outcome
        = .failed (.keyError "ref"))
    ∧ ((runMain [base] (some ⟨some n, some "", some b, some a⟩) env).outcome
        = .failed (.missingField "ref")) := by
  refine ⟨?_, ?_, ?_⟩
  · simp [runMain, mainAfterParse, validatePostReceiveArgs, hr]
  · simp [runMain, mainAfterParse]
  · simp [runMain, mainAfterParse, validatePostReceiveArgs]

/-- Witness for the amended claim C5 at concrete payloads. -/
theorem field_check_order_amended_witness :
    ((runMain ["/repos"]
        (some ⟨some "proj", some "refs/heads/main", some "", some "newrev"⟩)
        envOk).outcome = .failed (.missingField "before"))
    ∧ ((runMain ["/repos"]
        (some ⟨some "proj", none, some "oldrev", none⟩) envOk).outcome
        = .failed (.keyError "ref"))
    ∧ ((runMain ["/repos"]
        (some ⟨some "proj", some "", some "oldrev", some "newrev"⟩)
        envOk).outcome = .failed (.missingField "ref")) :=
  field_check_order_amended "/repos" "proj" "refs/heads/main" "oldrev"
    "newrev" (some "oldrev") none envOk (by decide)

/-- Claim C6: with the ref key absent from the payload, the run fails with
the ref KeyError and performs no filesystem or subprocess interaction at
all: no directory change, no fetch and no hook invocation, whatever the
remaining fields hold. -/
theorem missing_ref_fails_before_any_interaction
    (base n : String) (ob oa : Option String) (env : Env) :
    ((runMain [base] (some ⟨some n, none, ob, oa⟩) env).outcome
        = .failed (.keyError "ref"))
    ∧ (runMain [base] (some ⟨some n, none, ob, oa⟩) env).effects.filter
        Effect.touchesFsOrProc = [] := by
  simp [runMain, mainAfterParse, Effect.touchesFsOrProc]

/-- Claim C7: the repository location is the join of the base directory and
the repository name, and when that path is not an existing directory the run
fails with the chdir error on exactly that path, with the fetch and the hook
never invoked. -/
theorem missing_repo_dir_aborts_without_subprocess
    (base n r b a : String) (env : Env)
    (hr : r ≠ "") (hb : b ≠ "") (ha : a ≠ "")
    (hd : env.dirExists (pyJoin base n) = false) :
    ((runMain [base] (some ⟨some n, some r, some b, some a⟩) env).outcome
        = .failed (.chdirFailed (pyJoin base n)))
    ∧ (runMain [base] (some ⟨some n, some r, some b, some a⟩) env).effects.filter
        Effect.isRunFetch = []
    ∧ (runMain [base] (some ⟨some n, some r, some b, some a⟩) env).effects.filter
        Effect.isRunHook = [] := by
  simp [runMain, mainAfterParse, validatePostReceiveArgs, runValidated,
    Effect.isRunFetch, Effect.isRunHook, hr, hb, ha, hd]

/-- Witness for claim C7 at a concrete run against an empty filesystem. -/
theorem missing_repo_dir_aborts_without_subprocess_witness :
    ((runMain ["/repos"]
        (some ⟨some "ghost", some "refs/heads/main", some "oldrev", some "newrev"⟩)
        envNoDir).outcome = .failed (.chdirFailed (pyJoin "/repos" "ghost")))
    ∧ (runMain ["/repos"]
        (some ⟨some "ghost", some "refs/heads/main", some "oldrev", some "newrev"⟩)
        envNoDir).effects.filter Effect.isRunFetch = []
    ∧ (runMain ["/repos"]
        (some ⟨some "ghost", some "refs/heads/main", some "oldrev", some "newrev"⟩)
        envNoDir).effects.filter Effect.isRunHook = [] :=
  missing_repo_dir_aborts_without_subprocess "/repos" "ghost"
    "refs/heads/main" "oldrev" "newrev" envNoDir (by decide) (by decide)
    (by decide) rfl

/-- Claim C8: the relay logic is deterministic: two runs on the same argument
list and the same parsed payload, against environments that answer the
directory queries identically and exhibit the same fetch exit code and the
same hook start behaviour, output bytes and exit status, produce the same
effect trace and the same outcome, hence the same stdout, stderr and exit
status. -/
theorem relay_deterministic
    (args : List String) (p : Option Payload) (env1 env2 : Env)
    (h1 : env1.dirExists = env2.dirExists)
    (h2 : env1.fetchExitCode = env2.fetchExitCode)
    (h3 : env1.hookStartOk = env2.hookStartOk)
    (h4 : env1.hookStdout = env2.hookStdout)
    (h5 : env1.hookStderr = env2.hookStderr)
    (h6 : env1.hookExitCode = env2.hookExitCode) :
    runMain args p env1 = runMain args p env2 := by
  have h : env1 = env2 := by
    cases env1
    cases env2
    simp_all
  rw [h]

/-- Witness for claim C8 at a concrete pair of identical runs. -/
theorem relay_deterministic_witness :
    runMain ["/repos"]
        (some ⟨some "proj", some "refs/heads/main", some "oldrev", some "newrev"⟩)
        envOk
      = runMain ["/repos"]
        (some ⟨some "proj", some "refs/heads/main", some "oldrev", some "newrev"⟩)
        envOk :=
  relay_deterministic ["/repos"]
    (some ⟨some "proj", some "refs/heads/main", some "oldrev", some "newrev"⟩)
    envOk envOk rfl rfl rfl rfl rfl rfl

/-- Claim C9: an empty repository name passes validation untouched: with
non-empty ref, before and after the run performs the chdir, the fetch and the
hook invocation at the join of the base directory with the empty string, and
that join denotes the base directory itself, the two strings being equal once
trailing separators are stripped. -/
theorem empty_repo_name_runs_in_base_dir
    (base r b a : String) (env : Env)
    (hr : r ≠ "") (hb : b ≠ "") (ha : a ≠ "")
    (hd : env.dirExists (pyJoin base "") = true)
    (hf : env.fetchExitCode = 0)
    (hh : env.hookStartOk = true) :
    ((runMain [base] (some ⟨some "", some r, some b, some a⟩) env).effects
      = [.readStdin, .chdir (pyJoin base ""), .runFetch,
         .runHook (hookInputLine b a r)])
    ∧ stripTrailingSep (pyJoin base "") = stripTrailingSep base := by
  constructor
  · simp [runMain, mainAfterParse, validatePostReceiveArgs, runValidated,
      hr, hb, ha, hd, hf, hh]
  · exact stripTrailingSep_pyJoin_empty base

/-- Witness for claim C9 at a concrete run with an empty repository name. -/
theorem empty_repo_name_runs_in_base_dir_witness :
    ((runMain ["/repos"]
        (some ⟨some "", some "refs/heads/main", some "oldrev", some "newrev"⟩)
        envOk).effects
      = [.readStdin, .chdir (pyJoin "/repos" ""), .runFetch,
         .runHook (hookInputLine "oldrev" "newrev" "refs/heads/main")])
    ∧ stripTrailingSep (pyJoin "/repos" "") = stripTrailingSep "/repos" :=
  empty_repo_name_runs_in_base_dir "/repos" "refs/heads/main" "oldrev"
    "newrev" envOk (by decide) (by decide) (by decide) rfl rfl rfl
